import Mathlib

/-!
Verification of the object-identity layer of gitdb (`gitdb/object/base.py`)
against its specification.  The Python classes `Object` and `IndexObject`
are shallowly embedded: instances become Lean structures, construction and
attribute access become `Except`-valued functions, and the number of
backend `info` queries issued by an operation is returned explicitly so
that laziness/memoization claims can be stated.
-/

/-- Error taxonomy.  Each constructor corresponds to one failure site of the
source: `invalidDigest` is the `assert len(binsha) == 20` in
`Object.__init__`; `notFound` is the backend lookup miss surfaced by
`odb.info`; `unresolvable` is the `AttributeError` raised by
`IndexObject._set_cache_` for unset `path`/`mode`; `attributeNotSupported`
is the lazy-resolution fallthrough for an unrecognized field name;
`invalidOperation` is the `assert False` in `IndexObject.abspath`;
`badTypeName` is the failure of the type-name registry lookup. -/
inductive Error where
  | invalidDigest
  | notFound
  | unresolvable
  | attributeNotSupported
  | invalidOperation
  | badTypeName
deriving DecidableEq, Repr

/-- The closed enumeration of object kinds (`gitdb.typ.ObjectType`). -/
inductive ObjectType where
  | blob
  | tree
  | commit
  | tag
deriving DecidableEq, Repr

/-- The type-name string each variant is bound to (the `type` class
attribute of the concrete subclasses, drawn from `gitdb.typ`). -/
def ObjectType.name : ObjectType → String
  | .blob => "blob"
  | .tree => "tree"
  | .commit => "commit"
  | .tag => "tag"

/-- Result record of the backend `info` operation:
`{type: name, digest: 20 bytes, size: integer}`. -/
structure OInfo where
  type : String
  binsha : List Nat
  size : Nat
deriving DecidableEq, Repr

/-- Modelled from the spec: the backend capability contract (§6).  The
backend itself is an external collaborator, not part of the source file;
`info` returns `none` on a lookup miss (`NotFound`), `bare` is whether the
repository has no working tree, and `rootDir` is the working-tree path
that `root_path` would return for a non-bare repository. -/
structure ODB where
  info : List Nat → Option OInfo
  bare : Bool
  rootDir : String

/-- Modelled from the spec: `root_path` returns the working-tree
filesystem path and fails if the repository is bare (§6). -/
def ODB.root_path (odb : ODB) : Except Error String :=
  if odb.bare then .error .invalidOperation else .ok odb.rootDir

/-- Modelled from the spec: the variant registry, a static closed lookup
from type name to constructor covering exactly blob/tree/commit/tag
(`get_object_type_by_name` lives in `util.py`, outside the source file). -/
def get_object_type_by_name (n : String) : Except Error ObjectType :=
  if n = "blob" then .ok .blob
  else if n = "tree" then .ok .tree
  else if n = "commit" then .ok .commit
  else if n = "tag" then .ok .tag
  else .error .badTypeName

/-- An `Object` instance: the variant binding (`type`, a class attribute,
`none` on the base class), the borrowed backend reference `odb`, the
digest `binsha`, and the lazy `size` slot (`none` while unset). -/
structure Object where
  type : Option ObjectType
  odb : ODB
  binsha : List Nat
  size : Option Nat

/-- `Object.NULL_BIN_SHA`: twenty zero bytes. -/
def Object.NULL_BIN_SHA : List Nat := List.replicate 20 0

/-- `Object.__init__`: store the backend and digest; the
`assert len(binsha) == 20` makes construction fail unless the digest is
exactly 20 bytes.  The lazy `size` slot starts unset. -/
def Object.init (ty : Option ObjectType) (odb : ODB) (binsha : List Nat) :
    Except Error Object :=
  if binsha.length = 20 then .ok ⟨ty, odb, binsha, none⟩
  else .error .invalidDigest

/-- `Object.new_from_sha`: if the digest is the null sha, construct the
commit variant directly; otherwise query `odb.info`, look up the variant
for the reported type name, construct it with the canonical digest from
the info result and pre-populate its `size`.  The second component counts
the `info` queries issued. -/
def Object.new_from_sha (odb : ODB) (sha1 : List Nat) :
    Except Error Object × Nat :=
  if sha1 = Object.NULL_BIN_SHA then
    ((do
      let t ← get_object_type_by_name "commit"
      Object.init (some t) odb sha1), 0)
  else
    match odb.info sha1 with
    | none => (.error .notFound, 1)
    | some oinfo =>
      ((do
        let t ← get_object_type_by_name oinfo.type
        let inst ← Object.init (some t) odb oinfo.binsha
        pure { inst with size := some oinfo.size }), 1)

/-- Reading the `size` attribute through the lazy machinery.  The slot
test and memoization are modelled from the spec (§4.1 `LazyFieldCache`,
`gitdb.util.LazyMixin` being outside the source file): a cached value is
returned with no further work, otherwise `Object._set_cache_` from the
source runs: it queries `odb.info(binsha)` and stores the returned size
(the type-consistency assertion present in the source is commented out,
so no check is made).  Returns the value, the updated instance and the
number of `info` queries issued. -/
def Object.getSize (o : Object) : Except Error (Nat × Object × Nat) :=
  match o.size with
  | some s => .ok (s, o, 0)
  | none =>
    match o.odb.info o.binsha with
    | none => .error .notFound
    | some oinfo => .ok (oinfo.size, { o with size := some oinfo.size }, 1)

/-- `Object.__eq__`: digest-byte comparison. -/
def Object.beq (a b : Object) : Bool := a.binsha == b.binsha

/-- `Object.__ne__`: digest-byte disagreement. -/
def Object.bne (a b : Object) : Bool := a.binsha != b.binsha

/-- `Object.__hash__` is `hash(self.binsha)`: whatever hash function the
host applies, it is applied to the digest bytes. -/
def Object.hashv (h : List Nat → Int) (o : Object) : Int := h o.binsha

/-- Characters of the final slash-separated component: scan the path,
resetting the accumulator at each separator. -/
def basenameChars : List Char → List Char → List Char
  | [], acc => acc.reverse
  | c :: cs, acc =>
    if c = '/' then basenameChars cs [] else basenameChars cs (c :: acc)

/-- Modelled from the spec: `basename`, the name portion of a
slash-separated path (`gitdb.util.basename` is outside the source file). -/
def basename (p : String) : String :=
  String.mk (basenameChars p.data [])

/-- Modelled from the spec: `dirname`, the directory portion of a
slash-separated path (`gitdb.util.dirname` is outside the source file). -/
def dirname (p : String) : String :=
  String.mk (p.data.take (p.data.length - (basename p).data.length - 1))

/-- Modelled from the spec: joining two path components with the
separator (`gitdb.util.join_path_native`, outside the source file). -/
def join_path_native (a b : String) : String := a ++ "/" ++ b

/-- An `IndexObject` instance: the `Object` fields plus the set-once
tree-positional slots `mode` and `path` (`none` while unset). -/
structure IndexObject where
  type : Option ObjectType
  odb : ODB
  binsha : List Nat
  size : Option Nat
  mode : Option Nat
  path : Option String

/-- `IndexObject.__init__`: run the base construction (including the
20-byte digest assertion), then fill the `mode` and `path` slots exactly
when the corresponding argument was supplied. -/
def IndexObject.init (ty : Option ObjectType) (odb : ODB) (binsha : List Nat)
    (mode : Option Nat) (path : Option String) : Except Error IndexObject := do
  let base ← Object.init ty odb binsha
  pure ⟨base.type, base.odb, base.binsha, base.size, mode, path⟩

/-- Reading the `path` attribute.  An unset slot goes through the lazy
machinery to `IndexObject._set_cache_`, which raises for any attribute in
its slots (`path`/`mode`) since they cannot be retrieved later. -/
def IndexObject.getPath (o : IndexObject) : Except Error String :=
  match o.path with
  | some p => .ok p
  | none => .error .unresolvable

/-- Reading the `mode` attribute; same set-once contract as `path`. -/
def IndexObject.getMode (o : IndexObject) : Except Error Nat :=
  match o.mode with
  | some m => .ok m
  | none => .error .unresolvable

/-- `IndexObject.name`: `basename(self.path)`; reading `path` may fail. -/
def IndexObject.name (o : IndexObject) : Except Error String := do
  let p ← o.getPath
  pure (basename p)

/-- `IndexObject.__eq__` is inherited from `Object`: digest comparison. -/
def IndexObject.beq (a b : IndexObject) : Bool := a.binsha == b.binsha

/-- `IndexObject.__hash__` is overridden to `hash(self.path)`: the host
hash function is applied to the path, not the digest (reading `path` may
fail when unset). -/
def IndexObject.hashv (h : String → Int) (o : IndexObject) :
    Except Error Int := do
  let p ← o.getPath
  pure (h p)

/-- The value fed to the host hash function by `IndexObject.__hash__`:
the `path` slot. -/
def IndexObject.hashKey (o : IndexObject) : Except Error String := o.getPath

/-- `IndexObject.abspath`: the body begins with
`assert False, "Only works if repository is not bare - ..."`, which raises
unconditionally; the following `join_path_native(dirname(odb.root_path()),
path)` line is kept after the raise exactly as in the source. -/
def IndexObject.abspath (o : IndexObject) : Except Error String := do
  (throw Error.invalidOperation : Except Error Unit)
  let rp ← o.odb.root_path
  let p ← o.getPath
  pure (join_path_native (dirname rp) p)

/-! Concrete fixtures used by witnesses and counterexamples. -/

/-- A valid 20-byte digest distinct from the null digest. -/
def shaA : List Nat := List.replicate 19 0 ++ [1]

/-- A backend holding a tree object of size 42 under `shaA`. -/
def odbA : ODB :=
  ⟨fun d => if d = shaA then some ⟨"tree", shaA, 42⟩ else none, false, "/repo"⟩

/-- A bare backend holding nothing. -/
def odbBare : ODB := ⟨fun _ => none, true, "/repo"⟩

/-- A backend that reports type "commit" for `shaA`, used to exercise a
type mismatch against a blob-bound instance. -/
def odbMismatch : ODB :=
  ⟨fun d => if d = shaA then some ⟨"commit", shaA, 7⟩ else none, false, "/repo"⟩

/-- A blob-bound instance over `odbA` with digest `shaA`. -/
def objA : Object := ⟨some .blob, odbA, shaA, none⟩

/-- A tree-bound instance over `odbA` with the same digest `shaA`. -/
def objB : Object := ⟨some .tree, odbA, shaA, none⟩

/-- A blob-bound instance whose backend reports a mismatching type. -/
def objBlobMis : Object := ⟨some .blob, odbMismatch, shaA, none⟩

/-- An index entry with digest `shaA` and path "a/b/c.txt". -/
def idxA : IndexObject := ⟨some .blob, odbA, shaA, none, some 33188, some "a/b/c.txt"⟩

/-- An index entry with the same digest `shaA` but path "d.txt". -/
def idxB : IndexObject := ⟨some .blob, odbA, shaA, none, some 33188, some "d.txt"⟩

/-- C1: for every pair of `Object` instances, `__eq__` is true iff their
digest bytes are byte-equal, `__hash__` applies the host hash function to
the digest, and two instances with identical digest bytes compare equal
and hash identically. -/
theorem object_eq_iff_digest_and_hash (a b : Object) (h : List Nat → Int) :
    (Object.beq a b = true ↔ a.binsha = b.binsha) ∧
    Object.hashv h a = h a.binsha ∧
    (a.binsha = b.binsha →
      Object.beq a b = true ∧ Object.hashv h a = Object.hashv h b) := by
  refine ⟨by simp [Object.beq], rfl, fun hd => ⟨by simp [Object.beq, hd], ?_⟩⟩
  simp [Object.hashv, hd]

/-- Witness for C1 at the concrete pair `objA`, `objB` (same digest,
different variants). -/
theorem object_eq_iff_digest_and_hash_witness :
    Object.beq objA objB = true ∧
    Object.hashv (fun l => (l.length : Int)) objA =
      Object.hashv (fun l => (l.length : Int)) objB :=
  (object_eq_iff_digest_and_hash objA objB (fun l => (l.length : Int))).2.2 rfl

/-- C2: for every backend state, `new_from_sha` at the null digest
returns a commit-typed instance and issues zero `info` queries. -/
theorem new_from_sha_null_digest_commit (odb : ODB) :
    Object.new_from_sha odb Object.NULL_BIN_SHA =
      (.ok ⟨some ObjectType.commit, odb, Object.NULL_BIN_SHA, none⟩, 0) := rfl

/-- C4: construction fails with `InvalidDigest` exactly when the digest
is not 20 bytes; a successfully constructed instance carries the given
digest, hence satisfies the length invariant, and lazy size resolution
never changes the digest. -/
theorem object_init_invalid_digest_iff (ty : Option ObjectType) (odb : ODB)
    (binsha : List Nat) :
    (Object.init ty odb binsha = .error .invalidDigest ↔ binsha.length ≠ 20) ∧
    (∀ o, Object.init ty odb binsha = .ok o →
      o.binsha = binsha ∧ o.binsha.length = 20) ∧
    (∀ o : Object, ∀ v o2 n, o.getSize = .ok (v, o2, n) →
      o2.binsha = o.binsha) := by
  refine ⟨?_, ?_, ?_⟩
  · unfold Object.init
    by_cases hl : binsha.length = 20 <;> simp [hl]
  · intro o ho
    unfold Object.init at ho
    by_cases hl : binsha.length = 20
    · rw [if_pos hl] at ho
      cases ho
      exact ⟨rfl, hl⟩
    · rw [if_neg hl] at ho
      cases ho
  · intro o v o2 n hg
    unfold Object.getSize at hg
    cases hs : o.size with
    | some s => rw [hs] at hg; cases hg; rfl
    | none =>
      rw [hs] at hg
      cases hi : o.odb.info o.binsha with
      | none => rw [hi] at hg; cases hg
      | some oinfo => rw [hi] at hg; cases hg; rfl

/-- Witness for C4: a 3-byte digest is rejected, a 20-byte digest is
accepted with the invariant holding. -/
theorem object_init_invalid_digest_witness :
    (Object.init none odbA [1, 2, 3] = .error .invalidDigest) ∧
    (⟨none, odbA, shaA, none⟩ : Object).binsha = shaA ∧
    (⟨none, odbA, shaA, none⟩ : Object).binsha.length = 20 :=
  ⟨(object_init_invalid_digest_iff none odbA [1, 2, 3]).1.mpr (by decide),
   (object_init_invalid_digest_iff none odbA shaA).2.1 ⟨none, odbA, shaA, none⟩ rfl⟩

/-- C3: for every digest other than the null digest, `new_from_sha`
issues exactly one `info` query; a backend miss fails with `NotFound`;
on a hit, the instance is built from the registered variant for the
reported type name, carries the canonical digest from the info result,
and has its `size` slot pre-populated with the reported size. -/
theorem new_from_sha_nonnull_one_query (odb : ODB) (sha1 : List Nat)
    (hnn : sha1 ≠ Object.NULL_BIN_SHA) :
    (Object.new_from_sha odb sha1).2 = 1 ∧
    (odb.info sha1 = none →
      (Object.new_from_sha odb sha1).1 = .error .notFound) ∧
    (∀ oinfo t, odb.info sha1 = some oinfo →
      get_object_type_by_name oinfo.type = .ok t →
      oinfo.binsha.length = 20 →
      (Object.new_from_sha odb sha1).1 =
        .ok ⟨some t, odb, oinfo.binsha, some oinfo.size⟩) := by
  refine ⟨?_, ?_, ?_⟩
  · unfold Object.new_from_sha
    rw [if_neg hnn]
    cases hinfo : odb.info sha1 <;> rfl
  · intro hnone
    unfold Object.new_from_sha
    rw [if_neg hnn, hnone]
  · intro oinfo t hinfo ht hlen
    unfold Object.new_from_sha
    rw [if_neg hnn, hinfo]
    show (Except.bind (get_object_type_by_name oinfo.type) _) = _
    rw [ht]
    show (Except.bind (Object.init (some t) odb oinfo.binsha) _) = _
    unfold Object.init
    rw [if_pos hlen]
    rfl

/-- Witness for C3 at `odbA` and `shaA`: exactly one query, the tree
variant with the canonical digest and size 42; and a `NotFound` miss for
a digest `odbA` does not hold. -/
theorem new_from_sha_nonnull_one_query_witness :
    (Object.new_from_sha odbA shaA).2 = 1 ∧
    (Object.new_from_sha odbA shaA).1 =
      .ok ⟨some ObjectType.tree, odbA, shaA, some 42⟩ ∧
    (Object.new_from_sha odbA (List.replicate 19 0 ++ [2])).1 =
      .error .notFound :=
  ⟨(new_from_sha_nonnull_one_query odbA shaA (by decide)).1,
   (new_from_sha_nonnull_one_query odbA shaA (by decide)).2.2
     ⟨"tree", shaA, 42⟩ ObjectType.tree rfl rfl (by decide),
   (new_from_sha_nonnull_one_query odbA (List.replicate 19 0 ++ [2])
     (by decide)).2.1 rfl⟩

/-- C5: on an instance whose lazy `size` slot is unset and whose backend
resolves the digest, the first `size` read issues exactly one `info`
query and caches the returned size, and a second read on the resulting
instance returns the identical cached value with zero further queries. -/
theorem size_read_twice_single_query (o : Object) (oinfo : OInfo)
    (hs : o.size = none) (hi : o.odb.info o.binsha = some oinfo) :
    o.getSize = .ok (oinfo.size, { o with size := some oinfo.size }, 1) ∧
    ({ o with size := some oinfo.size } : Object).getSize =
      .ok (oinfo.size, { o with size := some oinfo.size }, 0) := by
  constructor
  · unfold Object.getSize
    rw [hs, hi]
  · rfl

/-- Witness for C5 at `objA` over `odbA`: first read yields 42 with one
query, second read yields 42 with zero queries. -/
theorem size_read_twice_single_query_witness :
    objA.getSize = .ok (42, { objA with size := some 42 }, 1) ∧
    ({ objA with size := some 42 } : Object).getSize =
      .ok (42, { objA with size := some 42 }, 0) :=
  size_read_twice_single_query objA ⟨"tree", shaA, 42⟩ rfl rfl

/-- C6 counterexample: `objBlobMis` is bound to the blob variant while
its backend reports type "commit" for its digest, yet lazy size
resolution succeeds and silently caches the size instead of failing or
flagging the mismatch. -/
theorem size_cache_type_mismatch_silent_cex :
    odbMismatch.info objBlobMis.binsha = some ⟨"commit", shaA, 7⟩ ∧
    objBlobMis.type = some ObjectType.blob ∧
    ObjectType.name ObjectType.blob ≠ "commit" ∧
    objBlobMis.getSize = .ok (7, { objBlobMis with size := some 7 }, 1) :=
  ⟨rfl, rfl, by decide, rfl⟩

/-- C6 amended: lazy size resolution performs no check of the
backend-reported type name against the instance's bound variant — the
size is cached and returned for every reported `OInfo`, mismatching or
not (the verifying assertion in the source is commented out). -/
theorem size_cache_ignores_reported_type (o : Object) (oinfo : OInfo)
    (hs : o.size = none) (hi : o.odb.info o.binsha = some oinfo) :
    o.getSize = .ok (oinfo.size, { o with size := some oinfo.size }, 1) := by
  unfold Object.getSize
  rw [hs, hi]

/-- Witness for the amended C6 at the mismatching fixture. -/
theorem size_cache_ignores_reported_type_witness :
    objBlobMis.getSize = .ok (7, { objBlobMis with size := some 7 }, 1) :=
  size_cache_ignores_reported_type objBlobMis ⟨"commit", shaA, 7⟩ rfl rfl

/-- C7: `IndexObject` equality stays the inherited digest comparison
while `IndexObject.__hash__` feeds the `path` slot (not the digest) to
the host hash function; two entries with equal digests but different set
paths therefore compare equal yet have different hash inputs. -/
theorem index_hash_from_path_eq_from_digest (a b : IndexObject)
    (h : String → Int) (pa pb : String) :
    (IndexObject.beq a b = true ↔ a.binsha = b.binsha) ∧
    IndexObject.hashKey a = a.getPath ∧
    (a.path = some pa → IndexObject.hashv h a = .ok (h pa)) ∧
    (a.binsha = b.binsha → a.path = some pa → b.path = some pb → pa ≠ pb →
      IndexObject.beq a b = true ∧
      IndexObject.hashKey a ≠ IndexObject.hashKey b) := by
  refine ⟨by simp [IndexObject.beq], rfl, ?_, ?_⟩
  · intro hp
    unfold IndexObject.hashv IndexObject.getPath
    rw [hp]
    rfl
  · intro hd hpa hpb hne
    refine ⟨by simp [IndexObject.beq, hd], ?_⟩
    unfold IndexObject.hashKey IndexObject.getPath
    rw [hpa, hpb]
    simp [hne]

/-- Witness for C7 at `idxA`, `idxB`: same digest, paths "a/b/c.txt" and
"d.txt"; they are equal but their hash inputs differ. -/
theorem index_hash_from_path_witness :
    IndexObject.beq idxA idxB = true ∧
    IndexObject.hashKey idxA ≠ IndexObject.hashKey idxB :=
  (index_hash_from_path_eq_from_digest idxA idxB (fun _ => 0)
    "a/b/c.txt" "d.txt").2.2.2 rfl rfl rfl (by decide)

/-- C8: an entry constructed with a valid digest but without `mode` or
`path` is built successfully, yet any later read of `path`, `mode` or
`name` fails with `Unresolvable`; an entry constructed with
path "a/b/c.txt" has `name` "c.txt". -/
theorem index_unset_fields_unresolvable (ty : Option ObjectType) (odb : ODB)
    (sha : List Nat) (hlen : sha.length = 20) :
    IndexObject.init ty odb sha none none =
      .ok ⟨ty, odb, sha, none, none, none⟩ ∧
    IndexObject.getPath ⟨ty, odb, sha, none, none, none⟩ =
      .error .unresolvable ∧
    IndexObject.getMode ⟨ty, odb, sha, none, none, none⟩ =
      .error .unresolvable ∧
    IndexObject.name ⟨ty, odb, sha, none, none, none⟩ =
      .error .unresolvable ∧
    (∀ m, IndexObject.init ty odb sha m (some "a/b/c.txt") =
        .ok ⟨ty, odb, sha, none, m, some "a/b/c.txt"⟩ ∧
      IndexObject.name ⟨ty, odb, sha, none, m, some "a/b/c.txt"⟩ =
        .ok "c.txt") := by
  refine ⟨?_, rfl, rfl, rfl, fun m => ⟨?_, rfl⟩⟩
  · unfold IndexObject.init Object.init
    rw [if_pos hlen]
    rfl
  · unfold IndexObject.init Object.init
    rw [if_pos hlen]
    rfl

/-- Witness for C8 at `odbA`, `shaA`, mode 33188. -/
theorem index_unset_fields_unresolvable_witness :
    IndexObject.name ⟨none, odbA, shaA, none, none, none⟩ =
      .error .unresolvable ∧
    IndexObject.name ⟨none, odbA, shaA, none, some 33188, some "a/b/c.txt"⟩ =
      .ok "c.txt" :=
  ⟨(index_unset_fields_unresolvable none odbA shaA (by decide)).2.2.2.1,
   ((index_unset_fields_unresolvable none odbA shaA (by decide)).2.2.2.2
     (some 33188)).2⟩

/-- C9: on every entry whose backend is bare, `abspath` fails with
`InvalidOperation`. -/
theorem abspath_bare_fails_invalid_operation (o : IndexObject)
    (_hbare : o.odb.bare = true) :
    o.abspath = .error .invalidOperation := rfl

/-- Witness for C9 at an entry over the bare backend `odbBare`. -/
theorem abspath_bare_fails_invalid_operation_witness :
    IndexObject.abspath ⟨none, odbBare, shaA, none, none, none⟩ =
      .error .invalidOperation :=
  abspath_bare_fails_invalid_operation
    ⟨none, odbBare, shaA, none, none, none⟩ rfl

/-- C10: `abspath` fails with `InvalidOperation` on every entry over
every backend, bare or not — the unconditional raise precedes the
`root_path` consultation and path join, which are unreachable. -/
theorem abspath_always_fails_unconditionally (o : IndexObject) :
    o.abspath = .error .invalidOperation := rfl
